import Mathlib

/-!
Verification of the SMS conversation decision engine.

We embed the decision engine of the repository (the pattern filters,
response parser, auto-reply classifier, escalation acknowledgment
generator, and the two inbound-message handlers of
`app/routes/messages.py` and `app/utils/llm_client.py`) as executable
Lean definitions and prove the specified properties about them.

Python strings are modelled as lists of characters (`Str`); the opaque
text-completion service and the SMS transport are modelled as oracle
values carried in an environment record (`Except Unit Str`: either a
response text or a raised exception).
-/

namespace SmsSpec

/-- Python strings are modelled as lists of characters. -/
abbrev Str := List Char

/-- Coerce a Lean string literal into the model representation. -/
def str (s : String) : Str := s.data

/-- Python `str.lower()` (character-wise lowering). -/
def pyLower (s : Str) : Str := s.map Char.toLower

/-- Python `str.upper()` (character-wise uppering). -/
def pyUpper (s : Str) : Str := s.map Char.toUpper

/-- Python `str.strip()`: drop leading and trailing whitespace. -/
def pyStrip (s : Str) : Str :=
  ((s.dropWhile Char.isWhitespace).reverse.dropWhile Char.isWhitespace).reverse

/-- Python substring containment `needle in hay`. -/
def containsSub (needle : Str) : Str → Bool
  | [] => needle.isEmpty
  | c :: rest => needle.isPrefixOf (c :: rest) || containsSub needle rest

/-- Python `text.split(sep)` for a one-character separator, specialised to
the newline splitting done by the response parser. -/
def splitLines : Str → List Str
  | [] => [[]]
  | c :: rest =>
    match splitLines rest with
    | [] => [[c]]
    | s :: ss => if c = '\n' then [] :: s :: ss else (c :: s) :: ss

/-! ### Pattern filters (`app/utils/llm_client.py`) -/

/-- The exact-phrase list of `_check_do_not_contact_patterns`. -/
def do_not_contact_patterns : List Str :=
  [str "do not contact", str "don\x27t contact", str "stop messaging",
   str "stop texting", str "don\x27t text", str "stop calling",
   str "stop contacting", str "remove me", str "unsubscribe",
   str "take me off", str "opt out", str "leave me alone",
   str "stop bothering", str "don\x27t want to hear", str "no more messages",
   str "not interested", str "if you contact me again i will sue",
   str "if you contact me again, i will sue"]

/-- First keyword group of the conjunctive do-not-contact fallback. -/
def dnc_stop_words : List Str :=
  [str "stop", str "don\x27t", str "remove", str "unsubscribe", str "opt out"]

/-- Second keyword group of the conjunctive do-not-contact fallback. -/
def dnc_contact_words : List Str :=
  [str "contact", str "message", str "text", str "call", str "bother"]

/-- Model of `_check_do_not_contact_patterns`: the deterministic do-not-contact filter. -/
def _check_do_not_contact_patterns (message : Str) : Bool :=
  let message_lower := pyStrip (pyLower message)
  if do_not_contact_patterns.any (fun p => containsSub p message_lower) then true
  else if (dnc_stop_words.any fun p => containsSub p message_lower) &&
          (dnc_contact_words.any fun p => containsSub p message_lower) then true
  else false

/-- Violence/threat keyword list of `_check_critical_escalation_patterns`. -/
def violence_patterns : List Str :=
  [str "kill", str "hurt", str "harm", str "destroy", str "burn", str "shoot",
   str "attack", str "beat", str "murder", str "violence", str "weapon",
   str "gun", str "knife", str "bomb", str "explode", str "pay",
   str "know where you live", str "find you", str "get you", str "come for you"]

/-- Legal-threat keyword list of `_check_critical_escalation_patterns`. -/
def legal_patterns : List Str :=
  [str "sue", str "lawyer", str "attorney", str "lawsuit", str "legal action",
   str "malpractice", str "court", str "judge", str "litigation",
   str "state board", str "licensing", str "report you", str "legal",
   str "action"]

/-- Medical-emergency keyword list of `_check_critical_escalation_patterns`. -/
def medical_emergency_patterns : List Str :=
  [str "severe pain", str "bleeding", str "allergic reaction",
   str "can\x27t breathe", str "emergency", str "hospital", str "infection",
   str "swollen", str "rash", str "burning", str "doesn\x27t look right",
   str "looks wrong", str "something wrong", str "something is wrong",
   str "not right"]

/-- Extreme-anger keyword list of `_check_critical_escalation_patterns`. -/
def extreme_anger_patterns : List Str :=
  [str "unacceptable", str "furious", str "terrible", str "worst",
   str "horrible", str "disgusting", str "incompetent", str "idiots",
   str "stupid", str "hate you", str "money back", str "never coming back",
   str "never again", str "done with you", str "awful", str "pathetic"]

/-- Threat-construction intent words of the final combination check. -/
def threat_intent_words : List Str := [str "going to", str "will", str "gonna"]

/-- Threat-construction action words of the final combination check. -/
def threat_action_words : List Str :=
  [str "kill", str "hurt", str "destroy", str "sue", str "report"]

/-- Model of `_check_critical_escalation_patterns`: the deterministic critical filter. -/
def _check_critical_escalation_patterns (message : Str) : Bool :=
  let message_lower := pyStrip (pyLower message)
  if violence_patterns.any (fun p => containsSub p message_lower) then true
  else if legal_patterns.any (fun p => containsSub p message_lower) then true
  else if medical_emergency_patterns.any (fun p => containsSub p message_lower) then true
  else if extreme_anger_patterns.any (fun p => containsSub p message_lower) then true
  else if (threat_intent_words.any fun p => containsSub p message_lower) &&
          (threat_action_words.any fun p => containsSub p message_lower) then true
  else false

/-! ### Generative classifier: response parsing and failure semantics -/

/-- Transient classification result of `generate_auto_reply`:
`(auto_reply_message, should_escalate, is_do_not_contact)`. -/
structure ClassificationResult where
  auto_reply : Option Str
  should_escalate : Bool
  is_do_not_contact : Bool
deriving DecidableEq

/-- The boolean values accepted as true by the response parser. -/
def truthy_values : List Str := [str "true", str "yes", str "1"]

/-- One iteration of the line-scanning loop of `generate_auto_reply`:
strip the line, match it by key prefix, and take the trimmed remainder. -/
def parse_ar_line (st : ClassificationResult) (rawLine : Str) : ClassificationResult :=
  let line := pyStrip rawLine
  if (str "AUTO_REPLY:").isPrefixOf line then
    let reply_text := pyStrip (line.drop (str "AUTO_REPLY:").length)
    if pyUpper reply_text ≠ str "NONE" then { st with auto_reply := some reply_text }
    else st
  else if (str "ESCALATE:").isPrefixOf line then
    let escalate_text := pyLower (pyStrip (line.drop (str "ESCALATE:").length))
    { st with should_escalate := truthy_values.contains escalate_text }
  else if (str "DO_NOT_CONTACT:").isPrefixOf line then
    let do_not_contact_text := pyLower (pyStrip (line.drop (str "DO_NOT_CONTACT:").length))
    { st with is_do_not_contact := truthy_values.contains do_not_contact_text }
  else st

/-- The response parser of `generate_auto_reply`: scan the lines of the
(already stripped) response text, starting from the defaults
`(None, false, false)`. -/
def parse_auto_reply_response (response_text : Str) : ClassificationResult :=
  (splitLines response_text).foldl parse_ar_line ⟨none, false, false⟩

/-- Model of `generate_escalation_message`: the escalation acknowledgment generator.
The opaque completion call is an oracle value: `.ok content` is a response
(the code returns it stripped), `.error` is a raised exception, on which the
code falls back to the fixed template embedding the customer name. -/
def generate_escalation_message (completion : Except Unit Str)
    (incoming_message customer_name : Str) : Str :=
  match incoming_message, completion with
  | _, .ok content => pyStrip content
  | _, .error _ =>
    str "Hi " ++ customer_name ++
      str ", I understand your concern. A staff member will contact you shortly to help resolve this."

/-- The external generative calls a pipeline run can make. -/
inductive LLMCall
  | classify
  | escalationAck
  | ongoing
deriving DecidableEq

deriving instance DecidableEq for Except

/-- Oracle environment of one inbound event: the outcome each external
call would have if made (`.error` models a raised exception). -/
structure Env where
  classify_completion : Except Unit Str
  ack_completion : Except Unit Str
  ongoing_completion : Except Unit Str
  send_reply : Except Unit Str
  send_ack : Except Unit Str
  now : Nat
deriving DecidableEq

/-- Model of `generate_auto_reply`, generalised over the critical-escalation
checker it consults (the code fixes it to
`_check_critical_escalation_patterns`; the generalisation lets us prove
that in the do-not-contact branch the checker is never consulted).
Besides the classification result we return the list of generative calls
the run makes. The customer profile and message history only shape the
prompt of the opaque completion call, whose outcome is the oracle
`env.classify_completion`; the parser receives the stripped response. An
exception of the completion call is caught and converted to the fail-safe
result `(None, true, false)`. -/
def generate_auto_reply_with (critical_check : Str → Bool) (env : Env)
    (incoming_message customer_name : Str) :
    ClassificationResult × List LLMCall :=
  if _check_do_not_contact_patterns incoming_message then
    (⟨none, true, true⟩, [])
  else if critical_check incoming_message then
    (⟨some (generate_escalation_message env.ack_completion incoming_message customer_name),
      true, false⟩, [LLMCall.escalationAck])
  else
    match env.classify_completion with
    | .ok content => (parse_auto_reply_response (pyStrip content), [LLMCall.classify])
    | .error _ => (⟨none, true, false⟩, [LLMCall.classify])

/-- Model of `generate_auto_reply` as in the source, with the fixed critical checker. -/
def generate_auto_reply (env : Env) (incoming_message customer_name : Str) :
    ClassificationResult × List LLMCall :=
  generate_auto_reply_with _check_critical_escalation_patterns env
    incoming_message customer_name

/-! ### Data model and conversation policy engine (`app/routes/messages.py`) -/

/-- Message direction. -/
inductive Direction
  | inbound
  | outbound
deriving DecidableEq

/-- Message source. -/
inductive Source
  | ai
  | manual
deriving DecidableEq

/-- A stored Message record. Customer ids are opaque; we use `Nat`.
`twilio_sid` is the optional delivery reference. -/
structure Msg where
  id : Nat
  customer_id : Nat
  direction : Direction
  content : Str
  source : Source
  escalation : Bool
  timestamp : Nat
  twilio_sid : Option Str
deriving DecidableEq

/-- A fresh document id, larger than every id in the store. -/
def nextId (store : List Msg) : Nat := (store.map Msg.id).foldr max 0 + 1

/-- Model of the per-document escalation update: set the flag of
the documents with the given id. -/
def setEscalation (store : List Msg) (mid : Nat) (b : Bool) : List Msg :=
  store.map fun m => if m.id == mid then { m with escalation := b } else m

/-- Stable insertion into a timestamp-descending list: the new element
goes before the first element whose timestamp it reaches, so elements
inserted later (which come earlier in the original list) precede
equal-timestamp elements. -/
def insertDescByTs (m : Msg) : List Msg → List Msg
  | [] => [m]
  | x :: xs =>
    if x.timestamp ≤ m.timestamp then m :: x :: xs else x :: insertDescByTs m xs

/-- Stable sort by timestamp, most recent first: the model of Python
`list.sort(key=timestamp, reverse=True)` (any stable sort agrees). -/
def sortDescByTs (l : List Msg) : List Msg := l.foldr insertDescByTs []

/-- The history assembler of both inbound handlers: fetch the customer
conversation, sort by timestamp descending, take the 10 most recent,
reverse to chronological order. -/
def fetchHistory (store : List Msg) (cid : Nat) : List Msg :=
  ((sortDescByTs (store.filter fun m => m.customer_id == cid)).take 10).reverse

/-- Scan the chronological window from most recent backward; report
whether the first outbound message found has `source=manual`. -/
def last_outbound_was_manual (history : List Msg) : Bool :=
  match history.reverse.find? (fun m => m.direction == Direction.outbound) with
  | some m => m.source == Source.manual
  | none => false

/-- Python truthiness of the parsed `auto_reply` value
(`None` and the empty string are falsy). -/
def truthyOpt : Option Str → Bool
  | none => false
  | some s => !s.isEmpty

/-- Terminal action of an inbound event. `suppressed` covers every path
on which the handler stores the inbound message and sends nothing
(staff takeover, already-escalated conversation, or a benign
classification without a usable reply). `httpError` is the propagated
500 of `send_ongoing_sms` when ongoing-response generation raises. -/
inductive Action
  | autoReply
  | escalateWithAck
  | escalateQuiet
  | escalateSilent
  | suppressed
  | httpError
deriving DecidableEq

/-- Result of one handler invocation: the updated store, the terminal
action taken, and the success flag reported to the caller. -/
structure HandlerResult where
  store : List Msg
  action : Action
  success : Bool
deriving DecidableEq

/-- The inbound Message stored by `handle_incoming_sms` (webhook):
`source=manual`, `escalation=false`, the Twilio message sid. -/
def incoming_inbound (env : Env) (store : List Msg) (cid : Nat)
    (body msgSid : Str) : Msg :=
  ⟨nextId store, cid, Direction.inbound, body, Source.manual, false, env.now, some msgSid⟩

/-- The history window `handle_incoming_sms` fetches: it is read after
the inbound message has been stored, so it includes that message. -/
def incomingHistory (env : Env) (store : List Msg) (cid : Nat)
    (body msgSid : Str) : List Msg :=
  fetchHistory (store ++ [incoming_inbound env store cid body msgSid]) cid

/-- Model of `handle_incoming_sms` (the `/incoming` Twilio webhook), after customer
resolution: store the inbound message, fetch the window, classify, and
execute the terminal action. The auto-reply `send_sms` call is not
individually wrapped: if it raises, the outer auto-reply `try` swallows
the exception, so the reply is NOT persisted yet the handler still
returns success. The acknowledgment send IS individually wrapped and a
failure is recorded as the `NOT_SENT_TWILIO_ERROR` sentinel. -/
def handle_incoming_sms (env : Env) (store : List Msg) (cid : Nat)
    (customer_name body msgSid : Str) : HandlerResult :=
  let inbound := incoming_inbound env store cid body msgSid
  let store1 := store ++ [inbound]
  let history := incomingHistory env store cid body msgSid
  let result := (generate_auto_reply env body customer_name).1
  let should_auto_reply₀ := truthyOpt result.auto_reply && !result.should_escalate
  let conversation_escalated := history.any (·.escalation)
  let lom := last_outbound_was_manual history
  let should_auto_reply := should_auto_reply₀ && !(conversation_escalated || lom)
  if should_auto_reply then
    match env.send_reply with
    | .ok sid =>
      let reply : Msg := ⟨nextId store1, cid, Direction.outbound,
        result.auto_reply.getD [], Source.ai, false, env.now + 1, some sid⟩
      ⟨store1 ++ [reply], Action.autoReply, true⟩
    | .error _ =>
      ⟨store1, Action.autoReply, true⟩
  else if result.should_escalate then
    let store2 := setEscalation store1 inbound.id true
    if conversation_escalated then ⟨store2, Action.escalateQuiet, true⟩
    else if !result.is_do_not_contact then
      let ackText := generate_escalation_message env.ack_completion body customer_name
      let ackSid := match env.send_ack with
        | .ok s => s
        | .error _ => str "NOT_SENT_TWILIO_ERROR"
      let ack : Msg := ⟨nextId store2, cid, Direction.outbound, ackText,
        Source.ai, false, env.now + 1, some ackSid⟩
      ⟨store2 ++ [ack], Action.escalateWithAck, true⟩
    else ⟨store2, Action.escalateSilent, true⟩
  else ⟨store1, Action.suppressed, true⟩

/-- The inbound Message stored by `send_ongoing_sms`: its escalation flag
is set directly from the classifier outcome, and no Twilio sid is stored. -/
def ongoing_inbound (env : Env) (store : List Msg) (cid : Nat)
    (body : Str) (esc : Bool) : Msg :=
  ⟨nextId store, cid, Direction.inbound, body, Source.manual, esc, env.now, none⟩

/-- Model of `send_ongoing_sms` (the `/ongoing/sms` route), after customer
resolution: here the window is fetched BEFORE the inbound message is
stored, auto-reply does not require the classifier to have produced a
reply text (a fresh ongoing response is generated instead), and both
outbound sends are individually wrapped with the sentinel. A raising
ongoing-response generation propagates as an HTTP 500. The
length-capped regeneration inside `generate_ongoing_response` re-invokes
the same oracle, so it is modelled as the single stripped response. -/
def send_ongoing_sms (env : Env) (store : List Msg) (cid : Nat)
    (customer_name body : Str) : HandlerResult :=
  let history := fetchHistory store cid
  let result := (generate_auto_reply env body customer_name).1
  let inbound := ongoing_inbound env store cid body result.should_escalate
  let store1 := store ++ [inbound]
  let should_auto_reply₀ := !result.should_escalate
  let conversation_escalated := history.any (·.escalation)
  let lom := last_outbound_was_manual history
  let should_auto_reply := should_auto_reply₀ && !(conversation_escalated || lom)
  if should_auto_reply then
    match env.ongoing_completion with
    | .error _ => ⟨store1, Action.httpError, false⟩
    | .ok content =>
      let ai_response := pyStrip content
      let sid := match env.send_reply with
        | .ok s => s
        | .error _ => str "NOT_SENT_TWILIO_ERROR"
      let reply : Msg := ⟨nextId store1, cid, Direction.outbound, ai_response,
        Source.ai, false, env.now + 1, some sid⟩
      ⟨store1 ++ [reply], Action.autoReply, true⟩
  else if result.should_escalate then
    let store2 := setEscalation store1 inbound.id true
    if conversation_escalated then ⟨store2, Action.escalateQuiet, true⟩
    else if !result.is_do_not_contact then
      let ackText := generate_escalation_message env.ack_completion body customer_name
      let ackSid := match env.send_ack with
        | .ok s => s
        | .error _ => str "NOT_SENT_TWILIO_ERROR"
      let ack : Msg := ⟨nextId store2, cid, Direction.outbound, ackText,
        Source.ai, false, env.now + 1, some ackSid⟩
      ⟨store2 ++ [ack], Action.escalateWithAck, true⟩
    else ⟨store2, Action.escalateSilent, true⟩
  else ⟨store1, Action.suppressed, true⟩

/-- The outbound Message stored by `send_manual_message`: `source=ai`
when the re-enable flag is set, `manual` otherwise; a failed send is
recorded as the sentinel delivery reference. -/
def manual_new_msg (env : Env) (store : List Msg) (cid : Nat)
    (content : Str) (re_enable_ai : Bool) : Msg :=
  ⟨nextId store, cid, Direction.outbound, content,
   if re_enable_ai then Source.ai else Source.manual, false, env.now,
   some (match env.send_reply with
     | .ok s => s
     | .error _ => str "NOT_SENT_TWILIO_ERROR")⟩

/-- Model of `send_manual_message` (the `/manual/send` route), after customer
resolution: send the staff-authored text (sentinel on failure), store it
with `source=ai` when the re-enable flag is set (`manual` otherwise), and
when re-enabling, query every escalated message of the conversation and
clear its escalation flag document by document. Returns the updated
store and the reported success flag. -/
def send_manual_message (env : Env) (store : List Msg) (cid : Nat)
    (content : Str) (re_enable_ai : Bool) : List Msg × Bool :=
  let newMsg := manual_new_msg env store cid content re_enable_ai
  let store1 := store ++ [newMsg]
  if re_enable_ai then
    let escalated_docs := store1.filter fun m => m.customer_id == cid && m.escalation
    let store2 := escalated_docs.foldl (fun s doc => setEscalation s doc.id false) store1
    (store2, true)
  else (store1, true)

/-! ### Claim-side vocabulary for the parser characterization -/

/-- Key-value reading of a single response line, as the specification
describes it: strip the line, match it by key prefix, take the trimmed
remainder; `none` when the line does not carry the key. -/
def key_value_of_line (key line : Str) : Option Str :=
  let l := pyStrip line
  if key.isPrefixOf l then some (pyStrip (l.drop key.length)) else none

/-- A boolean field value is true exactly when the trimmed value
lowercased is one of true, yes, 1. -/
def is_truthy_value (v : Str) : Bool := truthy_values.contains (pyLower v)

/-! ### Concrete fixtures used by counterexamples and witnesses -/

/-- A benign classifier response: a usable reply and no escalation. -/
def benign_response : Str :=
  str "AUTO_REPLY: Hi!\nESCALATE: false\nDO_NOT_CONTACT: false"

/-- A fully healthy oracle environment at time `k` with the given
classification response. -/
def ex_env (k : Nat) (classify : Except Unit Str) : Env :=
  ⟨classify, .ok (str "We will help"), .ok (str "Happy to help"),
   .ok (str "SID1"), .ok (str "SID2"), k⟩

/-- Trace for the C1 counterexample, event 1: a legal threat escalates
conversation 1 (message 1 gets the escalation flag, message 2 is the
acknowledgment). -/
def c1_first : HandlerResult :=
  handle_incoming_sms (ex_env 0 (.ok benign_response)) [] 1 (str "Ann")
    (str "I will sue you") (str "M1")

/-- Trace for the C1 counterexample, events 2 to 9: eight benign inbound
messages, each suppressed because the escalated message is still inside
the 10-message window; no re-enable-AI action ever runs. -/
def c1_store_before : List Msg :=
  (List.range' 2 8).foldl
    (fun s k =>
      (handle_incoming_sms (ex_env k (.ok benign_response)) s 1 (str "Ann")
        (str "ok") (str "M")).store)
    c1_first.store

/-- Trace for the C1 counterexample, event 10: one more benign inbound
message, arriving when the escalated message has just dropped out of the
10-message window. -/
def c1_final : HandlerResult :=
  handle_incoming_sms (ex_env 10 (.ok benign_response)) c1_store_before 1
    (str "Ann") (str "ok") (str "M")

/-- A one-message store whose only message carries the escalation flag. -/
def c1_w_store : List Msg :=
  [⟨1, 1, Direction.inbound, str "help", Source.manual, true, 0, none⟩]

/-- Environment whose auto-reply delivery raises while everything else
succeeds. -/
def c2_env : Env :=
  ⟨.ok benign_response, .ok (str "We will help"), .ok (str "Happy to help"),
   .error (), .ok (str "SID2"), 0⟩

/-- Environment whose acknowledgment delivery raises while everything
else succeeds. -/
def c2_ack_err_env : Env :=
  ⟨.ok benign_response, .ok (str "We will help"), .ok (str "Happy to help"),
   .ok (str "SID1"), .error (), 0⟩

/-- The webhook handler on a fresh conversation, benign classification,
with the auto-reply delivery raising. -/
def c2_res : HandlerResult :=
  handle_incoming_sms c2_env [] 1 (str "Ann") (str "hello") (str "M1")

/-- Environment whose classification completion call raises while
everything else succeeds. -/
def c4_env : Env :=
  ⟨.error (), .ok (str "We will help"), .ok (str "Happy to help"),
   .ok (str "SID1"), .ok (str "SID2"), 0⟩

/-- Environment whose classifier answers with no reply text and no
escalation. -/
def c3_env : Env :=
  ⟨.ok (str "AUTO_REPLY: NONE\nESCALATE: false\nDO_NOT_CONTACT: false"),
   .ok (str "We will help"), .ok (str "Happy to help"),
   .ok (str "SID1"), .ok (str "SID2"), 0⟩

/-- The webhook handler on a fresh conversation when the classifier
returns no reply text and no escalation. -/
def c3_res : HandlerResult :=
  handle_incoming_sms c3_env [] 1 (str "Ann") (str "hello") (str "M1")

/-- A store for the C8 witness: two escalated messages of two customers
and one non-escalated message. -/
def c8_w_store : List Msg :=
  [⟨1, 1, Direction.inbound, str "x", Source.manual, true, 0, none⟩,
   ⟨2, 2, Direction.inbound, str "y", Source.manual, true, 1, none⟩,
   ⟨3, 1, Direction.outbound, str "z", Source.ai, false, 2, none⟩]

/-! ### Helper lemmas -/

/-- Two nonempty lists with different heads cannot both be prefixes of
the same list. -/
theorem isPrefixOf_ne_head {a b : Char} {as bs : Str} (l : Str) (hab : a ≠ b)
    (ha : (a :: as).isPrefixOf l = true) : (b :: bs).isPrefixOf l = false := by
  cases l with
  | nil => simp [List.isPrefixOf] at ha
  | cons c cs =>
    have hac : a = c := by
      simp only [List.isPrefixOf, Bool.and_eq_true, beq_iff_eq] at ha
      exact ha.1
    subst hac
    simp only [List.isPrefixOf, Bool.and_eq_false_iff, beq_eq_false_iff_ne, ne_eq]
    left
    exact fun hba => hab hba.symm

/-- A line matched by the ESCALATE key is not matched by the AUTO_REPLY key. -/
theorem esc_not_auto {l : Str} (h : (str "ESCALATE:").isPrefixOf l = true) :
    (str "AUTO_REPLY:").isPrefixOf l = false := by
  have he : str "ESCALATE:" = 'E' :: str "SCALATE:" := rfl
  have ha : str "AUTO_REPLY:" = 'A' :: str "UTO_REPLY:" := rfl
  rw [he] at h
  rw [ha]
  exact isPrefixOf_ne_head l (by decide) h

/-- A line matched by the DO_NOT_CONTACT key is not matched by the
AUTO_REPLY key. -/
theorem dnc_not_auto {l : Str} (h : (str "DO_NOT_CONTACT:").isPrefixOf l = true) :
    (str "AUTO_REPLY:").isPrefixOf l = false := by
  have hd : str "DO_NOT_CONTACT:" = 'D' :: str "O_NOT_CONTACT:" := rfl
  have ha : str "AUTO_REPLY:" = 'A' :: str "UTO_REPLY:" := rfl
  rw [hd] at h
  rw [ha]
  exact isPrefixOf_ne_head l (by decide) h

/-- A line matched by the DO_NOT_CONTACT key is not matched by the
ESCALATE key. -/
theorem dnc_not_esc {l : Str} (h : (str "DO_NOT_CONTACT:").isPrefixOf l = true) :
    (str "ESCALATE:").isPrefixOf l = false := by
  have hd : str "DO_NOT_CONTACT:" = 'D' :: str "O_NOT_CONTACT:" := rfl
  have he : str "ESCALATE:" = 'E' :: str "SCALATE:" := rfl
  rw [hd] at h
  rw [he]
  exact isPrefixOf_ne_head l (by decide) h

/-- Effect of one parse step on the escalation field when the line
carries the ESCALATE key. -/
theorem parse_escalate_of_key {st : ClassificationResult} {a : Str}
    (h : (str "ESCALATE:").isPrefixOf (pyStrip a) = true) :
    (parse_ar_line st a).should_escalate =
      is_truthy_value (pyStrip ((pyStrip a).drop (str "ESCALATE:").length)) := by
  unfold parse_ar_line
  simp [esc_not_auto h, h, is_truthy_value]

/-- Lines without the ESCALATE key leave the escalation field unchanged. -/
theorem parse_escalate_of_not {st : ClassificationResult} {a : Str}
    (h : (str "ESCALATE:").isPrefixOf (pyStrip a) = false) :
    (parse_ar_line st a).should_escalate = st.should_escalate := by
  unfold parse_ar_line
  by_cases hA : (str "AUTO_REPLY:").isPrefixOf (pyStrip a) = true
  · by_cases hN : pyUpper (pyStrip ((pyStrip a).drop (str "AUTO_REPLY:").length)) ≠ str "NONE" <;>
      simp [hA, hN]
  · by_cases hD : (str "DO_NOT_CONTACT:").isPrefixOf (pyStrip a) = true <;>
      simp [hA, h, hD]

/-- Characterization of the escalation field of the line fold: the last
line carrying the ESCALATE key governs, and its absence leaves the
initial value. -/
theorem foldl_escalate (lines : List Str) (st : ClassificationResult) :
    (lines.foldl parse_ar_line st).should_escalate =
      match (lines.filterMap (key_value_of_line (str "ESCALATE:"))).getLast? with
      | some v => is_truthy_value v
      | none => st.should_escalate := by
  induction lines using List.reverseRecOn with
  | nil => simp
  | append_singleton ls a ih =>
    rw [List.foldl_append, List.filterMap_append]
    cases h : (str "ESCALATE:").isPrefixOf (pyStrip a) with
    | true =>
      have hv : (key_value_of_line (str "ESCALATE:")) a =
          some (pyStrip ((pyStrip a).drop (str "ESCALATE:").length)) := by
        unfold key_value_of_line
        simp [h]
      simp [hv, parse_escalate_of_key h, List.getLast?_concat]
    | false =>
      have hv : (key_value_of_line (str "ESCALATE:")) a = none := by
        unfold key_value_of_line
        simp [h]
      simp only [List.foldl_cons, List.foldl_nil]
      rw [parse_escalate_of_not h, ih]
      simp [hv]

/-- Effect of one parse step on the do-not-contact field when the line
carries the DO_NOT_CONTACT key. -/
theorem parse_dnc_of_key {st : ClassificationResult} {a : Str}
    (h : (str "DO_NOT_CONTACT:").isPrefixOf (pyStrip a) = true) :
    (parse_ar_line st a).is_do_not_contact =
      is_truthy_value (pyStrip ((pyStrip a).drop (str "DO_NOT_CONTACT:").length)) := by
  unfold parse_ar_line
  simp [dnc_not_auto h, dnc_not_esc h, h, is_truthy_value]

/-- Lines without the DO_NOT_CONTACT key leave the do-not-contact field
unchanged. -/
theorem parse_dnc_of_not {st : ClassificationResult} {a : Str}
    (h : (str "DO_NOT_CONTACT:").isPrefixOf (pyStrip a) = false) :
    (parse_ar_line st a).is_do_not_contact = st.is_do_not_contact := by
  unfold parse_ar_line
  by_cases hA : (str "AUTO_REPLY:").isPrefixOf (pyStrip a) = true
  · by_cases hN : pyUpper (pyStrip ((pyStrip a).drop (str "AUTO_REPLY:").length)) ≠ str "NONE" <;>
      simp [hA, hN]
  · by_cases hE : (str "ESCALATE:").isPrefixOf (pyStrip a) = true <;>
      simp [hA, hE, h]

/-- Characterization of the do-not-contact field of the line fold. -/
theorem foldl_dnc (lines : List Str) (st : ClassificationResult) :
    (lines.foldl parse_ar_line st).is_do_not_contact =
      match (lines.filterMap (key_value_of_line (str "DO_NOT_CONTACT:"))).getLast? with
      | some v => is_truthy_value v
      | none => st.is_do_not_contact := by
  induction lines using List.reverseRecOn with
  | nil => simp
  | append_singleton ls a ih =>
    rw [List.foldl_append, List.filterMap_append]
    cases h : (str "DO_NOT_CONTACT:").isPrefixOf (pyStrip a) with
    | true =>
      have hv : (key_value_of_line (str "DO_NOT_CONTACT:")) a =
          some (pyStrip ((pyStrip a).drop (str "DO_NOT_CONTACT:").length)) := by
        unfold key_value_of_line
        simp [h]
      simp [hv, parse_dnc_of_key h, List.getLast?_concat]
    | false =>
      have hv : (key_value_of_line (str "DO_NOT_CONTACT:")) a = none := by
        unfold key_value_of_line
        simp [h]
      simp only [List.foldl_cons, List.foldl_nil]
      rw [parse_dnc_of_not h, ih]
      simp [hv]

/-- Effect of one parse step on the reply field when the line carries
the AUTO_REPLY key: a NONE value leaves the field unchanged. -/
theorem parse_auto_of_key {st : ClassificationResult} {a : Str}
    (h : (str "AUTO_REPLY:").isPrefixOf (pyStrip a) = true) :
    (parse_ar_line st a).auto_reply =
      (if pyUpper (pyStrip ((pyStrip a).drop (str "AUTO_REPLY:").length)) ≠ str "NONE"
       then some (pyStrip ((pyStrip a).drop (str "AUTO_REPLY:").length))
       else st.auto_reply) := by
  unfold parse_ar_line
  by_cases hN : pyUpper (pyStrip ((pyStrip a).drop (str "AUTO_REPLY:").length)) ≠ str "NONE" <;>
    simp [h, hN]

/-- Lines without the AUTO_REPLY key leave the reply field unchanged. -/
theorem parse_auto_of_not {st : ClassificationResult} {a : Str}
    (h : (str "AUTO_REPLY:").isPrefixOf (pyStrip a) = false) :
    (parse_ar_line st a).auto_reply = st.auto_reply := by
  unfold parse_ar_line
  by_cases hE : (str "ESCALATE:").isPrefixOf (pyStrip a) = true
  · simp [h, hE]
  · by_cases hD : (str "DO_NOT_CONTACT:").isPrefixOf (pyStrip a) = true <;>
      simp [h, hE, hD]

/-- Characterization of the reply field of the line fold: the last
AUTO_REPLY value that is not NONE governs. -/
theorem foldl_auto_reply (lines : List Str) (st : ClassificationResult) :
    (lines.foldl parse_ar_line st).auto_reply =
      match ((lines.filterMap (key_value_of_line (str "AUTO_REPLY:"))).filter
          (fun v => !(pyUpper v == str "NONE"))).getLast? with
      | some v => some v
      | none => st.auto_reply := by
  induction lines using List.reverseRecOn with
  | nil => simp
  | append_singleton ls a ih =>
    rw [List.foldl_append, List.filterMap_append, List.filter_append]
    cases h : (str "AUTO_REPLY:").isPrefixOf (pyStrip a) with
    | true =>
      have hv : (key_value_of_line (str "AUTO_REPLY:")) a =
          some (pyStrip ((pyStrip a).drop (str "AUTO_REPLY:").length)) := by
        unfold key_value_of_line
        simp [h]
      simp only [List.foldl_cons, List.foldl_nil, hv, List.filterMap_cons,
        List.filterMap_nil]
      rw [parse_auto_of_key h]
      cases hN : pyUpper (pyStrip ((pyStrip a).drop (str "AUTO_REPLY:").length)) ==
          str "NONE" with
      | true =>
        have heq : pyUpper (pyStrip ((pyStrip a).drop (str "AUTO_REPLY:").length)) =
            str "NONE" := beq_iff_eq.mp hN
        simp [heq, ih]
      | false =>
        have hne : pyUpper (pyStrip ((pyStrip a).drop (str "AUTO_REPLY:").length)) ≠
            str "NONE" := beq_eq_false_iff_ne.mp hN
        simp [hne, hN, List.getLast?_concat]
    | false =>
      have hv : (key_value_of_line (str "AUTO_REPLY:")) a = none := by
        unfold key_value_of_line
        simp [h]
      simp only [List.foldl_cons, List.foldl_nil]
      rw [parse_auto_of_not h, ih]
      simp [hv]

/-- Every member of a list of naturals is bounded by the folded maximum. -/
theorem le_foldr_max {x : Nat} {l : List Nat} (h : x ∈ l) : x ≤ l.foldr max 0 := by
  induction l with
  | nil => cases h
  | cons a as ih =>
    rcases List.mem_cons.mp h with rfl | h
    · exact le_max_left _ _
    · exact le_trans (ih h) (le_max_right _ _)

/-- Freshness of generated document ids. -/
theorem nextId_fresh {store : List Msg} {m : Msg} (h : m ∈ store) :
    m.id ≠ nextId store := by
  have : m.id ≤ (store.map Msg.id).foldr max 0 :=
    le_foldr_max (List.mem_map.mpr ⟨m, h, rfl⟩)
  unfold nextId
  omega

/-- Folding per-document escalation clears over a document list equals a
single map clearing every message whose id occurs in the list. -/
theorem clearFold (docs : List Msg) (s : List Msg) :
    docs.foldl (fun acc doc => setEscalation acc doc.id false) s =
      s.map (fun m =>
        if m.id ∈ docs.map Msg.id then { m with escalation := false } else m) := by
  induction docs generalizing s with
  | nil => simp
  | cons d ds ih =>
    rw [List.foldl_cons, ih]
    unfold setEscalation
    rw [List.map_map]
    apply List.map_congr_left
    intro m _
    by_cases hd : m.id = d.id
    · by_cases hds : m.id ∈ ds.map Msg.id <;>
        simp [hd, hds, Function.comp]
    · by_cases hds : m.id ∈ ds.map Msg.id <;>
        simp [hd, hds, Function.comp]

/-! ### Claim theorems -/

/-- C1 (amended): once any message inside the fetched history window
(the 10 most recent messages of the conversation) has escalation=true,
the inbound event yields the terminal action Escalate-Quiet or
Suppressed and never Auto-Reply, in both inbound handlers. The original
claim quantified over any already-stored escalated message;
C1_counterexample shows that an escalated message older than the 10 most
recent messages no longer blocks auto-reply even though no re-enable-AI
action has occurred. -/
theorem C1_escalation_in_window_blocks_auto_reply (env : Env)
    (store : List Msg) (cid : Nat) (name body msgSid : Str) :
    ((incomingHistory env store cid body msgSid).any (fun m => m.escalation) = true →
      (handle_incoming_sms env store cid name body msgSid).action = Action.escalateQuiet ∨
      (handle_incoming_sms env store cid name body msgSid).action = Action.suppressed) ∧
    ((fetchHistory store cid).any (fun m => m.escalation) = true →
      (send_ongoing_sms env store cid name body).action = Action.escalateQuiet ∨
      (send_ongoing_sms env store cid name body).action = Action.suppressed) := by
  constructor
  · intro h
    unfold handle_incoming_sms
    cases hse : (generate_auto_reply env body name).1.should_escalate <;>
      simp [h, hse]
  · intro h
    unfold send_ongoing_sms
    cases hse : (generate_auto_reply env body name).1.should_escalate <;>
      simp [h, hse]

/-- C1 counterexample: a conversation produced purely by inbound webhook
events (a legal threat, then nine benign messages; no re-enable-AI
action ever runs) still stores an escalated message, yet the tenth
subsequent inbound event yields Auto-Reply, because the escalated
message has dropped out of the 10-message window the handler scans. -/
theorem C1_counterexample :
    c1_store_before.any (fun m => m.escalation) = true ∧
    c1_final.action = Action.autoReply := by
  decide

/-- C1 witness: on a store whose single message is escalated, both
handlers take the Escalate-Quiet or Suppressed action. -/
theorem C1_witness :
    ((handle_incoming_sms (ex_env 1 (.ok benign_response)) c1_w_store 1
        (str "Ann") (str "ok") (str "M")).action = Action.escalateQuiet ∨
      (handle_incoming_sms (ex_env 1 (.ok benign_response)) c1_w_store 1
        (str "Ann") (str "ok") (str "M")).action = Action.suppressed) ∧
    ((send_ongoing_sms (ex_env 1 (.ok benign_response)) c1_w_store 1
        (str "Ann") (str "ok")).action = Action.escalateQuiet ∨
      (send_ongoing_sms (ex_env 1 (.ok benign_response)) c1_w_store 1
        (str "Ann") (str "ok")).action = Action.suppressed) := by
  exact ⟨(C1_escalation_in_window_blocks_auto_reply (ex_env 1 (.ok benign_response))
      c1_w_store 1 (str "Ann") (str "ok") (str "M")).1 (by decide),
    (C1_escalation_in_window_blocks_auto_reply (ex_env 1 (.ok benign_response))
      c1_w_store 1 (str "Ann") (str "ok") (str "M")).2 (by decide)⟩

/-- C2 (amended): delivery failures degrade gracefully with the
NOT_SENT_TWILIO_ERROR sentinel and a success result on three of the four
outbound-sending paths: the auto-reply and acknowledgment paths of the
ongoing-SMS handler and the acknowledgment path of the webhook handler.
On the auto-reply path of the webhook handler, however, a raising send
skips persisting the outbound message entirely (the store gains only the
inbound message), while the handler still reports success. -/
theorem C2_delivery_failure_persistence (env : Env) (store : List Msg)
    (cid : Nat) (name body msgSid : Str) :
    (∀ c, env.ongoing_completion = .ok c → env.send_reply = .error () →
      (send_ongoing_sms env store cid name body).action = Action.autoReply →
      (send_ongoing_sms env store cid name body).success = true ∧
      ∃ pre m, (send_ongoing_sms env store cid name body).store = pre ++ [m] ∧
        m.direction = Direction.outbound ∧ m.source = Source.ai ∧
        m.twilio_sid = some (str "NOT_SENT_TWILIO_ERROR")) ∧
    (env.send_ack = .error () →
      (send_ongoing_sms env store cid name body).action = Action.escalateWithAck →
      (send_ongoing_sms env store cid name body).success = true ∧
      ∃ pre m, (send_ongoing_sms env store cid name body).store = pre ++ [m] ∧
        m.direction = Direction.outbound ∧ m.source = Source.ai ∧
        m.twilio_sid = some (str "NOT_SENT_TWILIO_ERROR")) ∧
    (env.send_ack = .error () →
      (handle_incoming_sms env store cid name body msgSid).action = Action.escalateWithAck →
      (handle_incoming_sms env store cid name body msgSid).success = true ∧
      ∃ pre m, (handle_incoming_sms env store cid name body msgSid).store = pre ++ [m] ∧
        m.direction = Direction.outbound ∧ m.source = Source.ai ∧
        m.twilio_sid = some (str "NOT_SENT_TWILIO_ERROR")) ∧
    (env.send_reply = .error () →
      (handle_incoming_sms env store cid name body msgSid).action = Action.autoReply →
      (handle_incoming_sms env store cid name body msgSid).success = true ∧
      (handle_incoming_sms env store cid name body msgSid).store =
        store ++ [incoming_inbound env store cid body msgSid]) := by
  refine ⟨?_, ?_, ?_, ?_⟩
  · intro c hok herr hact
    unfold send_ongoing_sms at hact ⊢
    cases hse : (generate_auto_reply env body name).1.should_escalate with
    | true =>
      cases hce : (fetchHistory store cid).any (fun m => m.escalation) <;>
        cases hdnc : (generate_auto_reply env body name).1.is_do_not_contact <;>
          simp [hse, hce, hdnc] at hact
    | false =>
      cases hce : (fetchHistory store cid).any (fun m => m.escalation) with
      | true => simp [hse, hce] at hact
      | false =>
        cases hlom : last_outbound_was_manual (fetchHistory store cid) with
        | true => simp [hse, hce, hlom] at hact
        | false =>
          simp only [hse, hce, hlom, hok, herr, Bool.not_false, Bool.and_true,
            Bool.or_false, Bool.true_and, Bool.not_true, Bool.and_false, if_true,
            Bool.false_or, ite_true]
          exact ⟨trivial, _, _, rfl, rfl, rfl, rfl⟩
  · intro hack hact
    unfold send_ongoing_sms at hact ⊢
    cases hse : (generate_auto_reply env body name).1.should_escalate with
    | false =>
      cases hoc : env.ongoing_completion <;>
      cases hce : (fetchHistory store cid).any (fun m => m.escalation) <;>
      cases hlom : last_outbound_was_manual (fetchHistory store cid) <;>
        simp [hse, hoc, hce, hlom] at hact
    | true =>
      cases hce : (fetchHistory store cid).any (fun m => m.escalation) with
      | true => simp [hse, hce] at hact
      | false =>
        cases hdnc : (generate_auto_reply env body name).1.is_do_not_contact with
        | true => simp [hse, hce, hdnc] at hact
        | false =>
          simp only [hse, hce, hdnc, hack, Bool.not_true, Bool.and_false,
            Bool.false_and, Bool.or_false, Bool.not_false]
          simp only [Bool.false_eq_true, if_false, if_true]
          exact ⟨trivial, _, _, rfl, rfl, rfl, rfl⟩
  · intro hack hact
    unfold handle_incoming_sms at hact ⊢
    cases hse : (generate_auto_reply env body name).1.should_escalate with
    | false =>
      cases hsr : env.send_reply <;>
      cases htr : truthyOpt (generate_auto_reply env body name).1.auto_reply <;>
      cases hce : (incomingHistory env store cid body msgSid).any (fun m => m.escalation) <;>
      cases hlom : last_outbound_was_manual (incomingHistory env store cid body msgSid) <;>
        simp [hse, hsr, htr, hce, hlom] at hact
    | true =>
      cases hce : (incomingHistory env store cid body msgSid).any (fun m => m.escalation) with
      | true => simp [hse, hce] at hact
      | false =>
        cases hdnc : (generate_auto_reply env body name).1.is_do_not_contact with
        | true => simp [hse, hce, hdnc] at hact
        | false =>
          simp only [hse, hce, hdnc, hack, Bool.not_true, Bool.and_false,
            Bool.false_and, Bool.or_false, Bool.not_false]
          simp only [Bool.false_eq_true, if_false, if_true]
          exact ⟨trivial, _, _, rfl, rfl, rfl, rfl⟩
  · intro herr hact
    unfold handle_incoming_sms at hact ⊢
    cases hse : (generate_auto_reply env body name).1.should_escalate with
    | true =>
      cases hce : (incomingHistory env store cid body msgSid).any (fun m => m.escalation) <;>
      cases hdnc : (generate_auto_reply env body name).1.is_do_not_contact <;>
        simp [hse, hce, hdnc] at hact
    | false =>
      cases htr : truthyOpt (generate_auto_reply env body name).1.auto_reply <;>
      cases hce : (incomingHistory env store cid body msgSid).any (fun m => m.escalation) <;>
      cases hlom : last_outbound_was_manual (incomingHistory env store cid body msgSid) <;>
        simp [hse, htr, hce, hlom, herr] at hact ⊢

/-- C2 counterexample: on the webhook auto-reply path with a raising
send, the terminal action sends an outbound message and the handler
reports success, yet no outbound Message is persisted at all, so none
carries the NOT_SENT_TWILIO_ERROR sentinel, contradicting the claim. -/
theorem C2_counterexample :
    c2_res.action = Action.autoReply ∧ c2_res.success = true ∧
    c2_res.store.filter (fun m => m.direction == Direction.outbound) = [] := by
  decide

/-- C2 witness: concrete runs of the four paths of the amended claim. -/
theorem C2_witness :
    ((send_ongoing_sms c2_env [] 1 (str "Ann") (str "hello")).success = true ∧
      ∃ pre m, (send_ongoing_sms c2_env [] 1 (str "Ann") (str "hello")).store = pre ++ [m] ∧
        m.direction = Direction.outbound ∧ m.source = Source.ai ∧
        m.twilio_sid = some (str "NOT_SENT_TWILIO_ERROR")) ∧
    ((send_ongoing_sms c2_ack_err_env [] 1 (str "Ann") (str "I will sue you")).success = true ∧
      ∃ pre m, (send_ongoing_sms c2_ack_err_env [] 1 (str "Ann") (str "I will sue you")).store = pre ++ [m] ∧
        m.direction = Direction.outbound ∧ m.source = Source.ai ∧
        m.twilio_sid = some (str "NOT_SENT_TWILIO_ERROR")) ∧
    ((handle_incoming_sms c2_ack_err_env [] 1 (str "Ann") (str "I will sue you") (str "M1")).success = true ∧
      ∃ pre m, (handle_incoming_sms c2_ack_err_env [] 1 (str "Ann") (str "I will sue you") (str "M1")).store = pre ++ [m] ∧
        m.direction = Direction.outbound ∧ m.source = Source.ai ∧
        m.twilio_sid = some (str "NOT_SENT_TWILIO_ERROR")) ∧
    ((handle_incoming_sms c2_env [] 1 (str "Ann") (str "hello") (str "M1")).success = true ∧
      (handle_incoming_sms c2_env [] 1 (str "Ann") (str "hello") (str "M1")).store =
        [] ++ [incoming_inbound c2_env [] 1 (str "hello") (str "M1")]) := by
  exact ⟨(C2_delivery_failure_persistence c2_env [] 1 (str "Ann") (str "hello")
      (str "M1")).1 (str "Happy to help") (by decide) (by decide) (by decide),
    (C2_delivery_failure_persistence c2_ack_err_env [] 1 (str "Ann")
      (str "I will sue you") (str "M1")).2.1 (by decide) (by decide),
    (C2_delivery_failure_persistence c2_ack_err_env [] 1 (str "Ann")
      (str "I will sue you") (str "M1")).2.2.1 (by decide) (by decide),
    (C2_delivery_failure_persistence c2_env [] 1 (str "Ann") (str "hello")
      (str "M1")).2.2.2 (by decide) (by decide)⟩

/-- C3 (amended): when the classifier result has should_escalate=false
and is_do_not_contact=false, no message of the fetched window has
escalation=true, and the most recent outbound message of the window is
not manual, the terminal action is Auto-Reply with an outbound Message
persisted as source=ai, escalation=false — provided, in the webhook
handler, the classifier produced a non-empty auto_reply and delivery
succeeds, and, in the ongoing-SMS handler, the fresh ongoing-response
generation succeeds. C3_counterexample shows the webhook handler sends
and persists nothing when the benign classification carries no reply
text, so the original unconditional claim fails. -/
theorem C3_benign_clean_window_auto_reply (env : Env) (store : List Msg)
    (cid : Nat) (name body msgSid : Str) :
    (∀ sid, env.send_reply = .ok sid →
      (generate_auto_reply env body name).1.should_escalate = false →
      (generate_auto_reply env body name).1.is_do_not_contact = false →
      truthyOpt (generate_auto_reply env body name).1.auto_reply = true →
      (incomingHistory env store cid body msgSid).any (fun m => m.escalation) = false →
      last_outbound_was_manual (incomingHistory env store cid body msgSid) = false →
      (handle_incoming_sms env store cid name body msgSid).action = Action.autoReply ∧
      ∃ m, (handle_incoming_sms env store cid name body msgSid).store =
          (store ++ [incoming_inbound env store cid body msgSid]) ++ [m] ∧
        m.direction = Direction.outbound ∧ m.source = Source.ai ∧
        m.escalation = false ∧ m.twilio_sid = some sid ∧
        some m.content = (generate_auto_reply env body name).1.auto_reply) ∧
    (∀ c, env.ongoing_completion = .ok c →
      (generate_auto_reply env body name).1.should_escalate = false →
      (fetchHistory store cid).any (fun m => m.escalation) = false →
      last_outbound_was_manual (fetchHistory store cid) = false →
      (send_ongoing_sms env store cid name body).action = Action.autoReply ∧
      ∃ m sidv, (send_ongoing_sms env store cid name body).store =
          (store ++ [ongoing_inbound env store cid body false]) ++ [m] ∧
        m.direction = Direction.outbound ∧ m.source = Source.ai ∧
        m.escalation = false ∧ m.content = pyStrip c ∧ m.twilio_sid = some sidv) := by
  constructor
  · intro sid hsr hse hdnc htr hce hlom
    unfold handle_incoming_sms
    simp only [hse, htr, hce, hlom, hsr, Bool.not_false, Bool.and_true,
      Bool.or_false, Bool.true_and]
    simp only [if_true, ite_true]
    refine ⟨trivial, _, rfl, rfl, rfl, rfl, rfl, ?_⟩
    cases haru : (generate_auto_reply env body name).1.auto_reply with
    | none =>
      rw [haru] at htr
      simp [truthyOpt] at htr
    | some s => simp [haru]
  · intro c hoc hse hce hlom
    unfold send_ongoing_sms
    simp only [hse, hce, hlom, hoc, Bool.not_false, Bool.and_true,
      Bool.or_false, Bool.true_and]
    simp only [if_true, ite_true]
    exact ⟨trivial, _, _, rfl, rfl, rfl, rfl, rfl, rfl⟩

/-- C3 counterexample: a fresh conversation, a benign classification
with should_escalate=false and is_do_not_contact=false, an empty window
with no escalation and no manual outbound message — yet the webhook
handler takes the Suppressed action and persists no outbound message,
because the classification carries no reply text. The original claim
demanded Auto-Reply here. -/
theorem C3_counterexample :
    (generate_auto_reply c3_env (str "hello") (str "Ann")).1 = ⟨none, false, false⟩ ∧
    (incomingHistory c3_env [] 1 (str "hello") (str "M1")).any (fun m => m.escalation) = false ∧
    last_outbound_was_manual (incomingHistory c3_env [] 1 (str "hello") (str "M1")) = false ∧
    c3_res.action = Action.suppressed ∧
    c3_res.store.filter (fun m => m.direction == Direction.outbound) = [] := by
  decide

/-- C3 witness: a benign classification with a reply text on a fresh
conversation yields Auto-Reply with a persisted ai outbound message in
both handlers. -/
theorem C3_witness :
    ((handle_incoming_sms (ex_env 0 (.ok benign_response)) [] 1 (str "Ann")
        (str "hello") (str "M1")).action = Action.autoReply ∧
      ∃ m, (handle_incoming_sms (ex_env 0 (.ok benign_response)) [] 1 (str "Ann")
          (str "hello") (str "M1")).store =
          ([] ++ [incoming_inbound (ex_env 0 (.ok benign_response)) [] 1
            (str "hello") (str "M1")]) ++ [m] ∧
        m.direction = Direction.outbound ∧ m.source = Source.ai ∧
        m.escalation = false ∧ m.twilio_sid = some (str "SID1") ∧
        some m.content = (generate_auto_reply (ex_env 0 (.ok benign_response))
          (str "hello") (str "Ann")).1.auto_reply) ∧
    ((send_ongoing_sms (ex_env 0 (.ok benign_response)) [] 1 (str "Ann")
        (str "hello")).action = Action.autoReply ∧
      ∃ m sidv, (send_ongoing_sms (ex_env 0 (.ok benign_response)) [] 1 (str "Ann")
          (str "hello")).store =
          ([] ++ [ongoing_inbound (ex_env 0 (.ok benign_response)) [] 1
            (str "hello") false]) ++ [m] ∧
        m.direction = Direction.outbound ∧ m.source = Source.ai ∧
        m.escalation = false ∧ m.content = pyStrip (str "Happy to help") ∧
        m.twilio_sid = some sidv) := by
  exact ⟨(C3_benign_clean_window_auto_reply (ex_env 0 (.ok benign_response)) [] 1
      (str "Ann") (str "hello") (str "M1")).1 (str "SID1") (by decide) (by decide)
      (by decide) (by decide) (by decide) (by decide),
    (C3_benign_clean_window_auto_reply (ex_env 0 (.ok benign_response)) [] 1
      (str "Ann") (str "hello") (str "M1")).2 (str "Happy to help") (by decide)
      (by decide) (by decide) (by decide)⟩

/-- C4: when the do-not-contact and critical filters both fail to match
and the underlying completion call raises, generate_auto_reply catches
the exception and returns exactly (auto_reply=None, should_escalate=true,
is_do_not_contact=false); the embedded function is total, so no
exception reaches the caller, and the call trace shows only the one
classification attempt. -/
theorem C4_generation_failure_failsafe (env : Env) (text name : Str)
    (hdnc : _check_do_not_contact_patterns text = false)
    (hcrit : _check_critical_escalation_patterns text = false)
    (herr : env.classify_completion = .error ()) :
    generate_auto_reply env text name = (⟨none, true, false⟩, [LLMCall.classify]) := by
  simp [generate_auto_reply, generate_auto_reply_with, hdnc, hcrit, herr]

/-- C4 witness: the fail-safe result on a concrete benign text with a
raising completion call. -/
theorem C4_witness :
    generate_auto_reply c4_env (str "hello") (str "Ann") =
      (⟨none, true, false⟩, [LLMCall.classify]) :=
  C4_generation_failure_failsafe c4_env (str "hello") (str "Ann")
    (by decide) (by decide) (by decide)

/-- C5: the response parser scans lines, matches each by key prefix
taking the trimmed remainder, ignores lines matching no key, and leaves
each field at its default when its key is absent: the reply is the last
AUTO_REPLY value not equal to NONE case-insensitively (absent
otherwise), and each boolean field is governed by the last line carrying
its key, true exactly when the trimmed value lowercased is one of true,
yes, 1. -/
theorem C5_parser_characterization (response_text : Str) :
    (parse_auto_reply_response response_text).auto_reply =
      (((splitLines response_text).filterMap (key_value_of_line (str "AUTO_REPLY:"))).filter
        (fun v => !(pyUpper v == str "NONE"))).getLast? ∧
    (parse_auto_reply_response response_text).should_escalate =
      (match ((splitLines response_text).filterMap
          (key_value_of_line (str "ESCALATE:"))).getLast? with
       | some v => is_truthy_value v
       | none => false) ∧
    (parse_auto_reply_response response_text).is_do_not_contact =
      (match ((splitLines response_text).filterMap
          (key_value_of_line (str "DO_NOT_CONTACT:"))).getLast? with
       | some v => is_truthy_value v
       | none => false) := by
  unfold parse_auto_reply_response
  refine ⟨?_, ?_, ?_⟩
  · rw [foldl_auto_reply]
    cases h : (((splitLines response_text).filterMap
        (key_value_of_line (str "AUTO_REPLY:"))).filter
          (fun v => !(pyUpper v == str "NONE"))).getLast? <;> simp
  · rw [foldl_escalate]
  · rw [foldl_dnc]

/-- C6: the do-not-contact check is true exactly when the normalized
text (lowercased, surrounding whitespace stripped) contains one of the
fixed exact phrases, or contains both a member of the stop-word group
and a member of the contact-word group; the embedded function is pure
and uses no oracle. -/
theorem C6_do_not_contact_characterization (text : Str) :
    _check_do_not_contact_patterns text = true ↔
      ((∃ p ∈ do_not_contact_patterns, containsSub p (pyStrip (pyLower text)) = true) ∨
       ((∃ p ∈ dnc_stop_words, containsSub p (pyStrip (pyLower text)) = true) ∧
        (∃ p ∈ dnc_contact_words, containsSub p (pyStrip (pyLower text)) = true))) := by
  have h : ∀ a b c : Bool, (if a then true else if b && c then true else false) = (a || (b && c)) := by
    decide
  unfold _check_do_not_contact_patterns
  rw [h]
  simp [List.any_eq_true]

/-- C7: on any text matched by the do-not-contact check,
generate_auto_reply returns exactly (auto_reply=None,
should_escalate=true, is_do_not_contact=true), makes no generative call
(empty call trace), and the result does not depend on the
critical-escalation checker, which is therefore never consulted. -/
theorem C7_do_not_contact_short_circuit (crit : Str → Bool) (env : Env)
    (text name : Str) (h : _check_do_not_contact_patterns text = true) :
    generate_auto_reply_with crit env text name = (⟨none, true, true⟩, []) ∧
    generate_auto_reply env text name = (⟨none, true, true⟩, []) := by
  constructor <;> simp [generate_auto_reply, generate_auto_reply_with, h]

/-- C7 witness: the short circuit on the text unsubscribe, even against
an always-true critical checker. -/
theorem C7_witness :
    generate_auto_reply_with (fun _ => true) (ex_env 0 (.ok benign_response))
      (str "unsubscribe") (str "Ann") = (⟨none, true, true⟩, []) ∧
    generate_auto_reply (ex_env 0 (.ok benign_response))
      (str "unsubscribe") (str "Ann") = (⟨none, true, true⟩, []) :=
  C7_do_not_contact_short_circuit (fun _ => true) (ex_env 0 (.ok benign_response))
    (str "unsubscribe") (str "Ann") (by decide)

/-- C8: sending a staff message with the re-enable-AI flag stores the
outbound Message with source=ai, reports success, and afterwards the
store equals the original store with exactly the escalated messages of
this customer cleared (every other message and every other field
unchanged) followed by the new message; in particular every previously
escalated message of the customer reappears with escalation=false and
every other message reappears unchanged. -/
theorem C8_re_enable_ai_frame (env : Env) (store : List Msg) (cid : Nat)
    (content : Str) (hnodup : (store.map Msg.id).Nodup) :
    (send_manual_message env store cid content true).2 = true ∧
    (manual_new_msg env store cid content true).source = Source.ai ∧
    (send_manual_message env store cid content true).1 =
      store.map (fun m => if m.customer_id == cid && m.escalation
        then { m with escalation := false } else m) ++
      [manual_new_msg env store cid content true] ∧
    (∀ m ∈ store, ¬(m.customer_id = cid ∧ m.escalation = true) →
      m ∈ (send_manual_message env store cid content true).1) ∧
    (∀ m ∈ store, m.customer_id = cid → m.escalation = true →
      { m with escalation := false } ∈ (send_manual_message env store cid content true).1) := by
  have hnew_esc : (manual_new_msg env store cid content true).escalation = false := rfl
  have hnodup1 : ((store ++ [manual_new_msg env store cid content true]).map Msg.id).Nodup := by
    rw [List.map_append, List.nodup_append]
    refine ⟨hnodup, by simp, ?_⟩
    intro x hx
    simp only [List.map_cons, List.map_nil, List.mem_singleton]
    obtain ⟨m, hm, rfl⟩ := List.mem_map.mp hx
    intro hc
    exact nextId_fresh hm hc
  have hmain : (send_manual_message env store cid content true).1 =
      store.map (fun m => if m.customer_id == cid && m.escalation
        then { m with escalation := false } else m) ++
      [manual_new_msg env store cid content true] := by
    simp only [send_manual_message]
    rw [if_pos trivial]
    rw [clearFold]
    have hcong : ∀ m ∈ store ++ [manual_new_msg env store cid content true],
        (if m.id ∈ (((store ++ [manual_new_msg env store cid content true]).filter
            (fun m => m.customer_id == cid && m.escalation)).map Msg.id)
          then { m with escalation := false } else m) =
        (if m.customer_id == cid && m.escalation
          then { m with escalation := false } else m) := by
      intro m hm
      by_cases hp : (m.customer_id == cid && m.escalation) = true
      · have hmem : m.id ∈ (((store ++ [manual_new_msg env store cid content true]).filter
            (fun m => m.customer_id == cid && m.escalation)).map Msg.id) :=
          List.mem_map.mpr ⟨m, List.mem_filter.mpr ⟨hm, hp⟩, rfl⟩
        rw [if_pos hmem, if_pos hp]
      · have hnot : m.id ∉ (((store ++ [manual_new_msg env store cid content true]).filter
            (fun m => m.customer_id == cid && m.escalation)).map Msg.id) := by
          intro hmem
          obtain ⟨m2, hm2, hid⟩ := List.mem_map.mp hmem
          obtain ⟨hm2s, hp2⟩ := List.mem_filter.mp hm2
          have heq : m2 = m := List.inj_on_of_nodup_map hnodup1 hm2s hm hid
          rw [heq] at hp2
          exact hp hp2
        rw [if_neg hnot, if_neg hp]
    rw [List.map_congr_left hcong, List.map_append]
    simp only [List.map_cons, List.map_nil]
    rw [if_neg]
    intro hc
    rw [hnew_esc] at hc
    simp at hc
  refine ⟨rfl, rfl, hmain, ?_, ?_⟩
  · intro m hm hcond
    rw [hmain]
    apply List.mem_append_left
    apply List.mem_map.mpr
    refine ⟨m, hm, ?_⟩
    rw [if_neg]
    intro hc
    rw [Bool.and_eq_true, beq_iff_eq] at hc
    exact hcond ⟨hc.1, hc.2⟩
  · intro m hm hcid hesc
    rw [hmain]
    apply List.mem_append_left
    apply List.mem_map.mpr
    refine ⟨m, hm, ?_⟩
    rw [if_pos]
    rw [Bool.and_eq_true, beq_iff_eq]
    exact ⟨hcid, hesc⟩

/-- C8 witness: the frame property on a concrete store holding escalated
messages of two customers. -/
theorem C8_witness :
    (send_manual_message (ex_env 3 (.ok benign_response)) c8_w_store 1
      (str "hi") true).2 = true ∧
    (manual_new_msg (ex_env 3 (.ok benign_response)) c8_w_store 1
      (str "hi") true).source = Source.ai ∧
    (send_manual_message (ex_env 3 (.ok benign_response)) c8_w_store 1
      (str "hi") true).1 =
      c8_w_store.map (fun m => if m.customer_id == 1 && m.escalation
        then { m with escalation := false } else m) ++
      [manual_new_msg (ex_env 3 (.ok benign_response)) c8_w_store 1
        (str "hi") true] := by
  have h := C8_re_enable_ai_frame (ex_env 3 (.ok benign_response)) c8_w_store 1
    (str "hi") (by decide)
  exact ⟨h.1, h.2.1, h.2.2.1⟩

/-- C9: the escalation-acknowledgment generator is total in the
embedding (it returns a string for every oracle outcome, so it never
raises), and when the generative call fails it returns exactly the fixed
templated sentence, which embeds the customer name. -/
theorem C9_escalation_ack_fallback (incoming name : Str) :
    generate_escalation_message (.error ()) incoming name =
      str "Hi " ++ name ++
        str ", I understand your concern. A staff member will contact you shortly to help resolve this." ∧
    name <:+: generate_escalation_message (.error ()) incoming name := by
  refine ⟨rfl, str "Hi ",
    str ", I understand your concern. A staff member will contact you shortly to help resolve this.", rfl⟩

/-- C10: every text whose normalized form contains pay or contains
action makes the critical-escalation check return true, and whenever the
critical check fires on a non-do-not-contact text, generate_auto_reply
escalates with the acknowledgment-generator output and its call trace
contains only the acknowledgment call — the generative classifier is
never consulted. -/
theorem C10_pay_action_always_critical (env : Env) (text name : Str) :
    ((containsSub (str "pay") (pyStrip (pyLower text)) = true ∨
      containsSub (str "action") (pyStrip (pyLower text)) = true) →
      _check_critical_escalation_patterns text = true) ∧
    (_check_do_not_contact_patterns text = false →
     _check_critical_escalation_patterns text = true →
     generate_auto_reply env text name =
       (⟨some (generate_escalation_message env.ack_completion text name), true, false⟩,
        [LLMCall.escalationAck])) := by
  constructor
  · intro h
    unfold _check_critical_escalation_patterns
    rcases h with h | h
    · have hv : violence_patterns.any (fun p => containsSub p (pyStrip (pyLower text))) = true := by
        rw [List.any_eq_true]
        exact ⟨str "pay", by decide, h⟩
      simp [hv]
    · have hl : legal_patterns.any (fun p => containsSub p (pyStrip (pyLower text))) = true := by
        rw [List.any_eq_true]
        exact ⟨str "action", by decide, h⟩
      cases hv : violence_patterns.any (fun p => containsSub p (pyStrip (pyLower text))) <;>
        simp [hv, hl]
  · intro hdnc hcrit
    simp [generate_auto_reply, generate_auto_reply_with, hdnc, hcrit]

/-- C10 witness: the benign question how do I pay is critical and is
escalated through the acknowledgment generator without consulting the
classifier. -/
theorem C10_witness :
    _check_critical_escalation_patterns (str "how do I pay?") = true ∧
    generate_auto_reply (ex_env 0 (.ok benign_response)) (str "how do I pay?")
      (str "Ann") =
      (⟨some (generate_escalation_message (ex_env 0 (.ok benign_response)).ack_completion
          (str "how do I pay?") (str "Ann")), true, false⟩,
       [LLMCall.escalationAck]) := by
  exact ⟨(C10_pay_action_always_critical (ex_env 0 (.ok benign_response))
      (str "how do I pay?") (str "Ann")).1 (Or.inl (by decide)),
    (C10_pay_action_always_critical (ex_env 0 (.ok benign_response))
      (str "how do I pay?") (str "Ann")).2 (by decide) (by decide)⟩

end SmsSpec
